import Mathlib

/-!
Verification development for the train-search assistant (`crew.py`).

The reproducible-logic core of the repository is shallowly embedded here:

* `validate_date`     — `TrainAPI.validate_date` (Python `strptime("%d-%m-%Y")`
  plus a not-in-the-past check against the ambient current date, which is
  passed explicitly as a `PyDate` parameter);
* `get_station_code`  — `TrainAPI.get_station_code`;
* `get_trains_between_stations` — `TrainAPI.get_trains_between_stations`,
  with the network modelled as an explicit environment oracle mapping the
  request endpoint to a transport outcome, and the list of issued requests
  returned alongside the result;
* `format_train_info` — `TrainAPI.format_train_info`;
* `get_quick_recommendations` / `_parse_duration` —
  `TrainAPI.get_quick_recommendations` and `TrainAPI._parse_duration`;
* `validate_inputs`   — the `validate_inputs` tool function.

Python peculiarities that matter are modelled faithfully: `strptime`'s
`%d`/`%m` accept one- or two-digit values while `%Y` requires exactly four
digits; `int(...)` accepts surrounding whitespace, a sign and digit-group
underscores; `min`/`max` keep the first element attaining the extremum;
string truthiness is non-emptiness and integer truthiness is non-zeroness.
-/

/-- A calendar date as produced by Python's `datetime.date` accessors. -/
structure PyDate where
  year : Nat
  month : Nat
  day : Nat
deriving DecidableEq, Repr

/-- Python `date` comparison `a <= b`: lexicographic on (year, month, day). -/
def PyDate.le (a b : PyDate) : Bool :=
  if a.year ≠ b.year then a.year < b.year
  else if a.month ≠ b.month then a.month < b.month
  else a.day ≤ b.day

/-- Leap-year test used by `datetime`'s day-of-month validation. -/
def isLeapYear (y : Nat) : Bool :=
  y % 4 = 0 && (y % 100 ≠ 0 || y % 400 = 0)

/-- Number of days in a month, as `datetime` validates them. -/
def daysInMonth (y m : Nat) : Nat :=
  if m = 2 then (if isLeapYear y then 29 else 28)
  else if m = 4 || m = 6 || m = 9 || m = 11 then 30
  else 31

/-- Numeric value of a run of ASCII digit characters. -/
def digitsToNat : List Char → Nat
  | [] => 0
  | c :: cs => (c.toNat - '0'.toNat) * 10 ^ cs.length + digitsToNat cs

/-- CPython `_strptime` field `%d`: one digit valued 1–9, or two digits valued
01–31 (regex `3[01]|[12]\d|0[1-9]|[1-9]` followed by the next literal). -/
def dayFieldVal (run : List Char) : Option Nat :=
  if run.length = 1 then
    let v := digitsToNat run
    if 1 ≤ v then some v else none
  else if run.length = 2 then
    let v := digitsToNat run
    if 1 ≤ v ∧ v ≤ 31 then some v else none
  else none

/-- CPython `_strptime` field `%m`: one digit valued 1–9, or two digits valued
01–12 (regex `1[0-2]|0[1-9]|[1-9]` followed by the next literal). -/
def monthFieldVal (run : List Char) : Option Nat :=
  if run.length = 1 then
    let v := digitsToNat run
    if 1 ≤ v then some v else none
  else if run.length = 2 then
    let v := digitsToNat run
    if 1 ≤ v ∧ v ≤ 12 then some v else none
  else none

/-- CPython `_strptime` field `%Y`: exactly four digits (regex `\d\d\d\d`);
`datetime` additionally requires the year to be at least `MINYEAR = 1`. -/
def yearFieldVal (run : List Char) : Option Nat :=
  if run.length = 4 then
    let v := digitsToNat run
    if 1 ≤ v then some v else none
  else none

/-- Python `datetime.strptime(s, "%d-%m-%Y")`, returning `none` where the
original raises `ValueError`: each numeric field is a maximal digit run
constrained as above, the two separators are literal `-`, the whole string
must be consumed, and the day must exist in the parsed month. -/
def pyStrptimeDMY (s : String) : Option PyDate :=
  let cs := s.toList
  let dRun := cs.takeWhile Char.isDigit
  let rest₁ := cs.dropWhile Char.isDigit
  match dayFieldVal dRun with
  | none => none
  | some d =>
    match rest₁ with
    | '-' :: rest₂ =>
      let mRun := rest₂.takeWhile Char.isDigit
      let rest₃ := rest₂.dropWhile Char.isDigit
      match monthFieldVal mRun with
      | none => none
      | some m =>
        match rest₃ with
        | '-' :: rest₄ =>
          let yRun := rest₄.takeWhile Char.isDigit
          let rest₅ := rest₄.dropWhile Char.isDigit
          match yearFieldVal yRun with
          | none => none
          | some y =>
            if rest₅ = [] ∧ d ≤ daysInMonth y m then
              some ⟨y, m, d⟩
            else none
        | _ => none
    | _ => none

/-- `TrainAPI.validate_date`: true iff the string parses under
`strptime("%d-%m-%Y")` and the parsed date is on or after `today`
(`datetime.now().date()`); a `ValueError` is caught and yields `False`. -/
def validate_date (today : PyDate) (date_str : String) : Bool :=
  match pyStrptimeDMY date_str with
  | none => false
  | some d => PyDate.le today d

/-- `TrainAPI.station_mappings`: the fixed station-name-to-code table. -/
def station_mappings : List (String × String) :=
  [("NEW DELHI", "NDLS"),
   ("MUMBAI CENTRAL", "BCT"),
   ("CHENNAI CENTRAL", "MAS"),
   ("KOLKATA", "KOAA"),
   ("BANGALORE", "SBC"),
   ("HYDERABAD", "SC"),
   ("PUNE", "PUNE"),
   ("AHMEDABAD", "ADI")]

/-- Python `str.upper()` (the inputs of interest are ASCII, where
per-character uppercasing coincides with Python's). -/
def pyUpper (s : String) : String :=
  String.mk (s.data.map Char.toUpper)

/-- `TrainAPI.get_station_code`: upper-case the input, look it up in the
table, and on a miss return the original input
(`self.station_mappings.get(station_upper, station_input)`). -/
def get_station_code (station_input : String) : String :=
  (station_mappings.lookup (pyUpper station_input)).getD station_input

/-- Continuation of a Python integer literal after its first digit:
`(digit | _ digit)*`, so underscores appear only singly between digits. -/
def pyIntTail : List Char → Bool
  | [] => true
  | '_' :: c :: cs => c.isDigit && pyIntTail cs
  | c :: cs => c.isDigit && pyIntTail cs

/-- Digit runs joined by single underscores, as accepted inside Python
`int(...)` literals: shape `digit (digit | _ digit)*`, valued by the digits
with underscores dropped. -/
def pyIntDigits (l : List Char) : Option Nat :=
  match l with
  | [] => none
  | c :: cs =>
    if c.isDigit && pyIntTail cs then
      some (digitsToNat (l.filter Char.isDigit))
    else none

/-- Python `int(s)` for ASCII decimal strings, returning `none` where the
original raises `ValueError`: surrounding whitespace is stripped, an optional
sign precedes the digits, and underscores may separate digit groups. -/
def pyInt (s : String) : Option Int :=
  let core := (s.toList.dropWhile Char.isWhitespace).reverse.dropWhile Char.isWhitespace |>.reverse
  match core with
  | '-' :: ds => (pyIntDigits ds).map (fun v => -(v : Int))
  | '+' :: ds => (pyIntDigits ds).map (fun v => (v : Int))
  | ds => (pyIntDigits ds).map (fun v => (v : Int))

/-- Python `str.split(sep)` for a single-character separator: splits at every
occurrence, keeping empty parts (`"".split(sep) = [""]`). -/
def pySplitChar (sep : Char) : List Char → List (List Char)
  | [] => [[]]
  | c :: cs =>
    if c = sep then [] :: pySplitChar sep cs
    else
      match pySplitChar sep cs with
      | r :: rs => (c :: r) :: rs
      | [] => [[c]]

/-- `TrainAPI._parse_duration`: if the string contains `:`, split on `:` and
convert both parts with `int`, returning hours·60+minutes; any failure
(wrong part count, unconvertible part, no colon) yields 999. -/
def _parse_duration (duration_str : String) : Int :=
  if duration_str.data.contains ':' then
    match (pySplitChar ':' duration_str.data).map (fun p => pyInt (String.mk p)) with
    | [some h, some m] => h * 60 + m
    | _ => 999
  else 999

/-- One train object of the API response, with each JSON field optional as
the code's `dict.get` accesses assume: `run_days` and `class_type` default to
`[]` at every access, and the remaining fields to `'N/A'` (or `0`/`999` for
`halt_stn`), so absent keys are modelled by `none` / `[]`. -/
structure Train where
  train_number : Option String := none
  train_name : Option String := none
  from_code : Option String := none
  from_station_name : Option String := none
  from_std : Option String := none
  to_code : Option String := none
  to_station_name : Option String := none
  to_sta : Option String := none
  duration : Option String := none
  distance : Option String := none
  halt_stn : Option Int := none
  run_days : List String := []
  class_type : List String := []
deriving DecidableEq, Repr

/-- The dict returned by `get_trains_between_stations` and consumed by
`format_train_info`: an optional `error` string plus a `data` list. A missing
`data` key and an empty list are conflated, as every access defaults it to
`[]`/`None` and only truthiness is inspected. -/
structure TrainResp where
  error : Option String := none
  data : List Train := []
deriving DecidableEq, Repr

/-- Python `sep.join(parts)`. -/
def pyJoin (sep : String) : List String → String
  | [] => ""
  | [x] => x
  | x :: xs => x ++ sep ++ pyJoin sep xs

/-- Line `{i}. {train_number} - {train_name}` of a train block. -/
def seqChunk (i : Nat) (t : Train) : String :=
  toString i ++ ". " ++ t.train_number.getD "N/A" ++ " - " ++ t.train_name.getD "N/A" ++ "\n"

/-- `From:` line of a train block. -/
def fromChunk (t : Train) : String :=
  "   ğŸ“ From: " ++ t.from_station_name.getD "N/A" ++ " (" ++ t.from_code.getD "N/A" ++ ") at " ++ t.from_std.getD "N/A" ++ "\n"

/-- `To:` line of a train block. -/
def toChunk (t : Train) : String :=
  "   ğŸ“ To: " ++ t.to_station_name.getD "N/A" ++ " (" ++ t.to_code.getD "N/A" ++ ") at " ++ t.to_sta.getD "N/A" ++ "\n"

/-- `Duration:` line of a train block. -/
def durChunk (t : Train) : String :=
  "   â±ï¸ Duration: " ++ t.duration.getD "N/A" ++ "\n"

/-- `Distance:` line of a train block. -/
def distChunk (t : Train) : String :=
  "   ğŸ“ Distance: " ++ t.distance.getD "N/A" ++ " km\n"

/-- `Running Days:` line of a train block. -/
def runChunk (t : Train) : String :=
  "   ğŸ“… Running Days: " ++ pyJoin ", " t.run_days ++ "\n"

/-- `Available Classes:` line of a train block. -/
def classChunk (t : Train) : String :=
  "   ğŸ« Available Classes: " ++ pyJoin ", " t.class_type ++ "\n"

/-- `Halt Stations:` line of a train block. -/
def haltChunk (halt_count : Int) : String :=
  "   ğŸš‰ Halt Stations: " ++ toString halt_count ++ "\n"

/-- The loop body of `format_train_info` for one train at 1-based index `i`:
the sequence/name, from, to, duration and distance lines unconditionally,
then the running-days line if `run_days` is truthy (non-empty), the classes
line if `class_type` is truthy, the halt line if `halt_stn` (default 0) is
truthy (non-zero), and a terminating blank line. -/
def renderTrainBlock (i : Nat) (t : Train) : String :=
  let result := seqChunk i t
  let result := result ++ fromChunk t
  let result := result ++ toChunk t
  let result := result ++ durChunk t
  let result := result ++ distChunk t
  let run_days := t.run_days
  let result := if run_days ≠ [] then result ++ runChunk t else result
  let classes := t.class_type
  let result := if classes ≠ [] then result ++ classChunk t else result
  let halt_count := t.halt_stn.getD 0
  let result := if halt_count ≠ 0 then result ++ haltChunk halt_count else result
  result ++ "\n"

/-- The `for i, train in enumerate(trains[:5], 1)` loop: blocks for the given
trains at consecutive 1-based indices starting from `i`. -/
def renderBlocks : Nat → List Train → String
  | _, [] => ""
  | i, t :: ts => renderTrainBlock i t ++ renderBlocks (i + 1) ts

/-- `TrainAPI.format_train_info`: the error branch when `error` is truthy
(present and non-empty), the two no-data branches, and otherwise a count
header, the blocks of the first five trains, and a `... and N more trains
available.` line when more than five exist. -/
def format_train_info (train_data : TrainResp) : String :=
  if train_data.error.getD "" ≠ "" then
    "âŒ Error: " ++ train_data.error.getD ""
  else if train_data.data = [] then
    "âŒ No trains found for the given route and date."
  else
    let trains := train_data.data
    if trains = [] then
      "âŒ No trains available for this route on the selected date."
    else
      let result := "ğŸš† Found " ++ toString trains.length ++ " trains for your journey:\n\n"
      let result := result ++ renderBlocks 1 (trains.take 5)
      if trains.length > 5 then
        result ++ ("... and " ++ toString (trains.length - 5) ++ " more trains available.\n")
      else result

/-- Python `min(xs, key=k)` run as a left fold over a non-empty list: the
running best is replaced only on strict `<`, so the first element attaining
the minimum wins. -/
def pymin (key : α → Int) : α → List α → α
  | best, [] => best
  | best, x :: xs => if key x < key best then pymin key x xs else pymin key best xs

/-- Python `max(xs, key=k)`: the running best is replaced only on strict `>`,
so the first element attaining the maximum wins. -/
def pymax (key : α → Int) : α → List α → α
  | best, [] => best
  | best, x :: xs => if key x > key best then pymax key x xs else pymax key best xs

/-- Key of the fastest-train selection:
`_parse_duration(t.get('duration', '99:99'))`. -/
def durationKey (t : Train) : Int :=
  _parse_duration (t.duration.getD "99:99")

/-- Key of the most-classes selection: `len(t.get('class_type', []))`. -/
def classKey (t : Train) : Int :=
  (t.class_type.length : Int)

/-- Key of the least-halts selection: `t.get('halt_stn', 999)`. -/
def haltKey (t : Train) : Int :=
  t.halt_stn.getD 999

/-- The record chosen by `min(trains, key=...)` for the fastest line
(`none` on the empty list, where Python `min` would raise but is never
reached). -/
def fastestOf : List Train → Option Train
  | [] => none
  | t :: ts => some (pymin durationKey t ts)

/-- The record chosen by `max(trains, key=...)` for the most-classes line. -/
def mostClassesOf : List Train → Option Train
  | [] => none
  | t :: ts => some (pymax classKey t ts)

/-- The record chosen by `min(trains, key=...)` for the least-halts line. -/
def leastHaltsOf : List Train → Option Train
  | [] => none
  | t :: ts => some (pymin haltKey t ts)

/-- `TrainAPI.get_quick_recommendations`: empty string on an empty list,
otherwise a header plus the fastest / most-classes / least-halts lines. -/
def get_quick_recommendations (trains : List Train) : String :=
  match trains with
  | [] => ""
  | t :: ts =>
    let recommendations := "\nğŸ¯ Quick Recommendations:\n\n"
    let fastest := pymin durationKey t ts
    let recommendations := recommendations ++
      ("âš¡ Fastest: " ++ fastest.train_name.getD "N/A" ++ " (" ++ fastest.duration.getD "N/A" ++ ")\n")
    let most_classes := pymax classKey t ts
    let recommendations := recommendations ++
      ("ğŸ« Most Classes: " ++ most_classes.train_name.getD "N/A" ++ " (" ++ toString most_classes.class_type.length ++ " classes)\n")
    let least_halts := pymin haltKey t ts
    let recommendations := recommendations ++
      ("ğŸš„ Least Halts: " ++ least_halts.train_name.getD "N/A" ++ " (" ++ toString (least_halts.halt_stn.getD 0) ++ " stops)\n")
    recommendations

/-- Behaviour of the network on one issued request: either a transport-level
exception with its message (`str(e)`), or a response with an HTTP status and
a body on which `json.loads` either fails (exception message) or yields a
decoded value. -/
inductive NetOutcome where
  | fault (msg : String)
  | response (status : Nat) (body : Except String TrainResp)

/-- The request endpoint composed by `get_trains_between_stations` after
resolving both station inputs through `get_station_code`. -/
def endpointOf (from_code to_code date : String) : String :=
  "/api/v3/trainBetweenStations?fromStationCode=" ++ get_station_code from_code ++
    "&toStationCode=" ++ get_station_code to_code ++ "&dateOfJourney=" ++ date

/-- Result of `get_trains_between_stations` together with the endpoints of
the requests it issued, in order. -/
structure FetchResult where
  resp : TrainResp
  requests : List String
deriving Repr

/-- `TrainAPI.get_trains_between_stations`: missing-parameter and invalid-date
short circuits, then station-code resolution, one request to the composed
endpoint, and totalized error handling — non-200 statuses, body-parse
failures and transport faults all return an error-carrying dict. The ambient
current date is the `today` parameter; the network is the `env` oracle. -/
def get_trains_between_stations (today : PyDate) (env : String → NetOutcome)
    (from_code to_code date : String) : FetchResult :=
  if from_code = "" ∨ to_code = "" ∨ date = "" then
    ⟨⟨some "Missing required parameters", []⟩, []⟩
  else if ¬ validate_date today date then
    ⟨⟨some "Invalid date format or date is in the past", []⟩, []⟩
  else
    let endpoint := endpointOf from_code to_code date
    match env endpoint with
    | .fault msg =>
      ⟨⟨some ("Connection error: " ++ msg), []⟩, [endpoint]⟩
    | .response status body =>
      if status ≠ 200 then
        ⟨⟨some ("API Error: " ++ toString status), []⟩, [endpoint]⟩
      else
        match body with
        | .error msg => ⟨⟨some ("Connection error: " ++ msg), []⟩, [endpoint]⟩
        | .ok j => ⟨j, [endpoint]⟩

/-- The dict returned by the `validate_inputs` tool. -/
structure ValidationResult where
  valid : Bool
  issues : List String
  suggestions : List String
deriving DecidableEq, Repr

/-- The `validate_inputs` tool: the three checks run unconditionally in
order, each appending one issue and one suggestion, and `valid` is
`len(issues) == 0`. -/
def validate_inputs (today : PyDate) (from_station to_station date : String) :
    ValidationResult :=
  let issues : List String := []
  let suggestions : List String := []
  let issues := if from_station.length < 2 then
    issues ++ ["Departure station code too short"] else issues
  let suggestions := if from_station.length < 2 then
    suggestions ++ ["Use 3-4 letter station codes (e.g., NDLS for New Delhi)"] else suggestions
  let issues := if to_station.length < 2 then
    issues ++ ["Destination station code too short"] else issues
  let suggestions := if to_station.length < 2 then
    suggestions ++ ["Use 3-4 letter station codes (e.g., BCT for Mumbai Central)"] else suggestions
  let issues := if ¬ validate_date today date then
    issues ++ ["Invalid date or date is in the past"] else issues
  let suggestions := if ¬ validate_date today date then
    suggestions ++ ["Use DD-MM-YYYY format and ensure date is today or future"] else suggestions
  ⟨issues.length == 0, issues, suggestions⟩

/-- Transcription of the specification's words, for comparison with the
code's `validate_date`: a *strict* `DD-MM-YYYY` parse, i.e. exactly two day
digits, two month digits and four year digits separated by hyphens, denoting
an existing calendar date. -/
def specStrictParsesDDMMYYYY (s : String) : Bool :=
  match s.data with
  | [d₁, d₂, '-', m₁, m₂, '-', y₁, y₂, y₃, y₄] =>
    if ([d₁, d₂, m₁, m₂, y₁, y₂, y₃, y₄].all Char.isDigit) then
      let d := digitsToNat [d₁, d₂]
      let m := digitsToNat [m₁, m₂]
      let y := digitsToNat [y₁, y₂, y₃, y₄]
      decide (1 ≤ d ∧ 1 ≤ m ∧ m ≤ 12 ∧ 1 ≤ y ∧ d ≤ daysInMonth y m)
    else false
  | _ => false

/-- Does the second list start with the first? -/
def listStarts : List Char → List Char → Bool
  | [], _ => true
  | _ :: _, [] => false
  | n :: ns, h :: hs => n = h && listStarts ns hs

/-- Does `needle` occur contiguously inside the second list? -/
def occursWithin (needle : List Char) : List Char → Bool
  | [] => listStarts needle []
  | h :: hs => listStarts needle (h :: hs) || occursWithin needle hs

/-- Substring test on the underlying character lists. -/
def strContains (hay needle : String) : Bool :=
  occursWithin needle.data hay.data

/-- Number of display lines of a rendered string: one more than the number
of newline characters. -/
def numLines (s : String) : Nat :=
  s.data.count '\n' + 1

/-- Concatenation of a list of string chunks, in order. -/
def concatChunks : List String → String
  | [] => ""
  | s :: rest => s ++ concatChunks rest

/-- Pairs each element with its position counting from `i`, in order:
Python `enumerate(l, i)`. -/
def enumFrom : Nat → List α → List (Nat × α)
  | _, [] => []
  | i, x :: xs => (i, x) :: enumFrom (i + 1) xs


theorem str_append_empty (s : String) : s ++ "" = s := by
  apply String.ext
  show (s ++ "").data = s.data
  rw [String.data_append]
  exact List.append_nil _

theorem str_append_assoc (a b c : String) : a ++ b ++ c = a ++ (b ++ c) := by
  apply String.ext
  simp [String.data_append, List.append_assoc]

theorem pymin_split {α : Type} (key : α → Int) :
    ∀ (l : List α) (a : α),
      ∃ l₁ l₂, a :: l = l₁ ++ pymin key a l :: l₂ ∧
        (∀ x ∈ l₁, key (pymin key a l) < key x) ∧
        (∀ x ∈ a :: l, key (pymin key a l) ≤ key x) := by
  intro l
  induction l with
  | nil =>
    intro a
    refine ⟨[], [], rfl, by simp, ?_⟩
    intro x hx
    have hxa : x = a := by simpa using hx
    simp [pymin, hxa]
  | cons x xs ih =>
    intro a
    by_cases h : key x < key a
    · have hmin : pymin key a (x :: xs) = pymin key x xs := by simp [pymin, h]
      obtain ⟨l₁, l₂, hsplit, hstrict, hle⟩ := ih x
      refine ⟨a :: l₁, l₂, ?_, ?_, ?_⟩
      · rw [hmin]
        show a :: x :: xs = a :: (l₁ ++ pymin key x xs :: l₂)
        rw [← hsplit]
      · intro y hy
        rw [hmin]
        rcases List.mem_cons.mp hy with rfl | hy₂
        · exact lt_of_le_of_lt (hle x (by simp)) h
        · exact hstrict y hy₂
      · intro y hy
        rw [hmin]
        rcases List.mem_cons.mp hy with rfl | hy₂
        · exact le_of_lt (lt_of_le_of_lt (hle x (by simp)) h)
        · exact hle y hy₂
    · have hmin : pymin key a (x :: xs) = pymin key a xs := by simp [pymin, h]
      have hax : key a ≤ key x := not_lt.mp h
      obtain ⟨l₁, l₂, hsplit, hstrict, hle⟩ := ih a
      cases l₁ with
      | nil =>
        simp only [List.nil_append] at hsplit
        have h₁ : a = pymin key a xs := (List.cons.injEq _ _ _ _ ▸ hsplit).1
        refine ⟨[], x :: xs, ?_, by simp, ?_⟩
        · rw [hmin, ← h₁, List.nil_append]
        · intro y hy
          rw [hmin, ← h₁]
          rcases List.mem_cons.mp hy with rfl | hy₂
          · exact le_refl _
          rcases List.mem_cons.mp hy₂ with rfl | hy₃
          · exact hax
          · have := hle y (List.mem_cons_of_mem _ hy₃)
            rwa [← h₁] at this
      | cons b l₁' =>
        rw [List.cons_append] at hsplit
        have h₁ : a = b := (List.cons.injEq _ _ _ _ ▸ hsplit).1
        have h₂ : xs = l₁' ++ pymin key a xs :: l₂ :=
          (List.cons.injEq _ _ _ _ ▸ hsplit).2
        have hpa : key (pymin key a xs) < key a := by
          have := hstrict b (by simp)
          rwa [← h₁] at this
        refine ⟨a :: x :: l₁', l₂, ?_, ?_, ?_⟩
        · rw [hmin]
          show a :: x :: xs = a :: x :: (l₁' ++ pymin key a xs :: l₂)
          rw [← h₂]
        · intro y hy
          rw [hmin]
          rcases List.mem_cons.mp hy with rfl | hy₂
          · exact hpa
          rcases List.mem_cons.mp hy₂ with rfl | hy₃
          · exact lt_of_lt_of_le hpa hax
          · exact hstrict y (List.mem_cons_of_mem _ hy₃)
        · intro y hy
          rw [hmin]
          rcases List.mem_cons.mp hy with rfl | hy₂
          · exact hle y (by simp)
          rcases List.mem_cons.mp hy₂ with rfl | hy₃
          · exact le_trans (hle a (by simp)) hax
          · exact hle y (List.mem_cons_of_mem _ hy₃)

theorem renderBlocks_eq (l : List Train) :
    ∀ i, renderBlocks i l =
      concatChunks ((enumFrom i l).map fun p => renderTrainBlock p.1 p.2) := by
  induction l with
  | nil => intro i; rfl
  | cons t ts ih => intro i; simp [renderBlocks, enumFrom, concatChunks, ih]

/-- C1 counterexample: on a lookup miss `get_station_code` returns the input
as given, not upper-cased, so `resolve("xyz") = "xyz" ≠ "XYZ"` and
`resolve("ndls") = "ndls" ≠ "NDLS"`. -/
theorem get_station_code_lowercase_cex :
    get_station_code "xyz" = "xyz" ∧ get_station_code "xyz" ≠ "XYZ" ∧
    get_station_code "ndls" = "ndls" ∧ get_station_code "ndls" ≠ "NDLS" := by
  decide

/-- C1 (amended): `get_station_code` returns the mapped code when the
upper-cased input is a key of the fixed station table, and otherwise returns
the original input unchanged (not its upper-cased form). -/
theorem get_station_code_resolution (s c : String) :
    (station_mappings.lookup (pyUpper s) = some c → get_station_code s = c) ∧
    (station_mappings.lookup (pyUpper s) = none → get_station_code s = s) := by
  constructor
  · intro h
    unfold get_station_code
    rw [h]
    rfl
  · intro h
    unfold get_station_code
    rw [h]
    rfl

/-- Witness for the C1 theorem: `"NEW DELHI"` is mapped to `"NDLS"`, and the
unmapped `"ndls"` falls through unchanged. -/
theorem get_station_code_resolution_witness :
    (station_mappings.lookup (pyUpper "NEW DELHI") = some "NDLS" ∧
      get_station_code "NEW DELHI" = "NDLS") ∧
    (station_mappings.lookup (pyUpper "ndls") = none ∧
      get_station_code "ndls" = "ndls") :=
  ⟨⟨by decide, (get_station_code_resolution "NEW DELHI" "NDLS").1 (by decide)⟩,
   ⟨by decide, (get_station_code_resolution "ndls" "NDLS").2 (by decide)⟩⟩

/-- C2 counterexample: an unparsable duration is keyed `999` minutes, not a
worst-possible value, so the `"unknown"` record is chosen as fastest over a
record whose duration `"20:00"` parses to 1200 minutes. -/
theorem fastest_sentinel_cex :
    _parse_duration "20:00" = 1200 ∧ _parse_duration "unknown" = 999 ∧
    fastestOf [({duration := some "20:00"} : Train), {duration := some "unknown"}] =
      some {duration := some "unknown"} := by
  decide

/-- C2 (amended): on a non-empty list the fastest pick minimises
`durationKey` — `_parse_duration` of the record's duration, which is 999 for
a duration that does not parse (and 6039 for a missing one) — with ties
broken by first occurrence; a record of unparsable duration can therefore be
chosen over parsable durations exceeding 999 minutes. -/
theorem fastest_minimises_duration_key (l : List Train) (t : Train)
    (ts : List Train) (h : l = t :: ts) :
    ∃ p, fastestOf l = some p ∧
      (∀ x ∈ l, durationKey p ≤ durationKey x) ∧
      ∃ l₁ l₂, l = l₁ ++ p :: l₂ ∧ ∀ x ∈ l₁, durationKey p < durationKey x := by
  subst h
  obtain ⟨l₁, l₂, hsplit, hstrict, hle⟩ := pymin_split durationKey ts t
  exact ⟨pymin durationKey t ts, rfl, hle, l₁, l₂, hsplit, hstrict⟩

/-- Witness for the C2 theorem at the specification's example durations
`"02:30"`, `"01:45"`, `"unknown"`: the `"01:45"` record is the pick. -/
theorem fastest_minimises_duration_key_witness :
    (∃ p, fastestOf [({duration := some "02:30"} : Train),
        {duration := some "01:45"}, {duration := some "unknown"}] = some p ∧
      (∀ x ∈ [({duration := some "02:30"} : Train),
        {duration := some "01:45"}, {duration := some "unknown"}],
        durationKey p ≤ durationKey x) ∧
      ∃ l₁ l₂, [({duration := some "02:30"} : Train),
        {duration := some "01:45"}, {duration := some "unknown"}] = l₁ ++ p :: l₂ ∧
        ∀ x ∈ l₁, durationKey p < durationKey x) ∧
    fastestOf [({duration := some "02:30"} : Train),
        {duration := some "01:45"}, {duration := some "unknown"}] =
      some {duration := some "01:45"} :=
  ⟨fastest_minimises_duration_key _ _ _ rfl, by decide⟩

/-- C7 counterexample: an absent `halt_stn` is keyed by the sentinel `999`,
which is not larger than every possible halt count: against a record with
known `halt_stn = 999` the unknown-halt record wins the tie by input order,
and against a known `halt_stn = 1000` it wins outright. -/
theorem least_halts_sentinel_cex :
    leastHaltsOf [({halt_stn := none} : Train), {halt_stn := some 999}] =
      some {halt_stn := none} ∧
    leastHaltsOf [({halt_stn := some 1000} : Train), {halt_stn := none}] =
      some {halt_stn := none} := by
  decide

/-- C7 (amended): `get_quick_recommendations` returns the empty string on an
empty list; on a non-empty list the least-halts pick minimises `haltKey`
(`halt_stn` with absent values keyed by the sentinel 999) with ties broken by
first occurrence, so a record of unknown halt count is never chosen while
some record has a known halt count strictly below 999. -/
theorem least_halts_minimises_halt_key (l : List Train) (t : Train)
    (ts : List Train) (h : l = t :: ts) :
    get_quick_recommendations [] = "" ∧
    ∃ p, leastHaltsOf l = some p ∧
      (∀ x ∈ l, haltKey p ≤ haltKey x) ∧
      (∃ l₁ l₂, l = l₁ ++ p :: l₂ ∧ ∀ x ∈ l₁, haltKey p < haltKey x) ∧
      ((∃ x ∈ l, ∃ n : Int, x.halt_stn = some n ∧ n < 999) →
        p.halt_stn ≠ none) := by
  subst h
  obtain ⟨l₁, l₂, hsplit, hstrict, hle⟩ := pymin_split haltKey ts t
  refine ⟨rfl, pymin haltKey t ts, rfl, hle, ⟨l₁, l₂, hsplit, hstrict⟩, ?_⟩
  rintro ⟨x, hx, n, hn, hlt⟩ hnone
  have hkey : haltKey (pymin haltKey t ts) = 999 := by
    simp [haltKey, hnone]
  have := hle x hx
  rw [hkey, haltKey, hn] at this
  simp only [Option.getD_some] at this
  exact absurd (lt_of_le_of_lt this hlt) (lt_irrefl _)

/-- Witness for the C7 theorem: among halt counts 12, 3 and unknown, the
record with 3 halts is the pick. -/
theorem least_halts_minimises_halt_key_witness :
    (get_quick_recommendations [] = "" ∧
      ∃ p, leastHaltsOf [({halt_stn := some 12} : Train),
          {halt_stn := some 3}, {halt_stn := none}] = some p ∧
        (∀ x ∈ [({halt_stn := some 12} : Train),
          {halt_stn := some 3}, {halt_stn := none}], haltKey p ≤ haltKey x) ∧
        (∃ l₁ l₂, [({halt_stn := some 12} : Train),
          {halt_stn := some 3}, {halt_stn := none}] = l₁ ++ p :: l₂ ∧
          ∀ x ∈ l₁, haltKey p < haltKey x) ∧
        ((∃ x ∈ [({halt_stn := some 12} : Train),
          {halt_stn := some 3}, {halt_stn := none}],
            ∃ n : Int, x.halt_stn = some n ∧ n < 999) → p.halt_stn ≠ none)) ∧
    leastHaltsOf [({halt_stn := some 12} : Train),
        {halt_stn := some 3}, {halt_stn := none}] =
      some {halt_stn := some 3} :=
  ⟨least_halts_minimises_halt_key _ _ _ rfl, by decide⟩

/-- C3: when the preconditions pass, `get_trains_between_stations` issues
exactly one request and never raises: a transport fault is returned as the
error variant embedding the underlying message, a non-200 status as the
error variant embedding the status code, and a body-parse failure as the
error variant embedding the parse error message. -/
theorem fetch_totalises_failures (today : PyDate) (env : String → NetOutcome)
    (from_code to_code date : String)
    (h₁ : from_code ≠ "") (h₂ : to_code ≠ "") (h₃ : date ≠ "")
    (h₄ : validate_date today date = true) :
    (get_trains_between_stations today env from_code to_code date).requests =
      [endpointOf from_code to_code date] ∧
    (∀ msg, env (endpointOf from_code to_code date) = .fault msg →
      (get_trains_between_stations today env from_code to_code date).resp =
        ⟨some ("Connection error: " ++ msg), []⟩) ∧
    (∀ status body, env (endpointOf from_code to_code date) = .response status body →
      status ≠ 200 →
      (get_trains_between_stations today env from_code to_code date).resp =
        ⟨some ("API Error: " ++ toString status), []⟩) ∧
    (∀ body msg, env (endpointOf from_code to_code date) = .response 200 body →
      body = .error msg →
      (get_trains_between_stations today env from_code to_code date).resp =
        ⟨some ("Connection error: " ++ msg), []⟩) := by
  have hval : get_trains_between_stations today env from_code to_code date =
      (match env (endpointOf from_code to_code date) with
       | .fault msg =>
         ⟨⟨some ("Connection error: " ++ msg), []⟩, [endpointOf from_code to_code date]⟩
       | .response status body =>
         if status ≠ 200 then
           ⟨⟨some ("API Error: " ++ toString status), []⟩, [endpointOf from_code to_code date]⟩
         else
           match body with
           | .error msg =>
             ⟨⟨some ("Connection error: " ++ msg), []⟩, [endpointOf from_code to_code date]⟩
           | .ok j => ⟨j, [endpointOf from_code to_code date]⟩) := by
    unfold get_trains_between_stations
    simp [h₁, h₂, h₃, h₄]
  cases henv : env (endpointOf from_code to_code date) with
  | fault msg =>
    rw [henv] at hval
    refine ⟨by rw [hval], ?_, ?_, ?_⟩
    · intro msg' heq
      cases heq
      rw [hval]
    · intro status body heq
      simp at heq
    · intro body msg' heq
      simp at heq
  | response status body =>
    rw [henv] at hval
    by_cases hs : status = 200
    · subst hs
      simp only [ne_eq, not_true_eq_false, if_false] at hval
      cases body with
      | error msg =>
        refine ⟨by rw [hval], ?_, ?_, ?_⟩
        · intro msg' heq
          simp at heq
        · intro status' body' heq hne
          cases heq
          exact absurd rfl hne
        · intro body' msg' heq heq₂
          cases heq
          cases heq₂
          rw [hval]
      | ok j =>
        refine ⟨by rw [hval], ?_, ?_, ?_⟩
        · intro msg' heq
          simp at heq
        · intro status' body' heq hne
          cases heq
          exact absurd rfl hne
        · intro body' msg' heq heq₂
          cases heq
          simp at heq₂
    · simp only [ne_eq, hs, not_false_eq_true, if_true] at hval
      refine ⟨by rw [hval], ?_, ?_, ?_⟩
      · intro msg' heq
        simp at heq
      · intro status' body' heq hne
        cases heq
        rw [hval]
      · intro body' msg' heq heq₂
        cases heq
        exact absurd rfl hs

/-- Witness for the C3 theorem: a 503 response on valid inputs yields one
request and the `API Error: 503` error variant. -/
theorem fetch_totalises_failures_witness :
    (get_trains_between_stations ⟨2026, 10, 12⟩
        (fun _ => .response 503 (.ok ⟨none, []⟩)) "NDLS" "BCT" "25-12-2030").requests =
      [endpointOf "NDLS" "BCT" "25-12-2030"] ∧
    (get_trains_between_stations ⟨2026, 10, 12⟩
        (fun _ => .response 503 (.ok ⟨none, []⟩)) "NDLS" "BCT" "25-12-2030").resp =
      ⟨some ("API Error: " ++ toString 503), []⟩ := by
  have h := fetch_totalises_failures ⟨2026, 10, 12⟩
    (fun _ => .response 503 (.ok ⟨none, []⟩)) "NDLS" "BCT" "25-12-2030"
    (by decide) (by decide) (by decide) (by decide)
  exact ⟨h.1, h.2.2.1 503 (.ok ⟨none, []⟩) rfl (by decide)⟩

/-- C6: an empty origin, destination or date, or a date rejected by
`validate_date`, short-circuits `get_trains_between_stations` to the error
variant with no network request issued. -/
theorem fetch_short_circuits (today : PyDate) (env : String → NetOutcome)
    (from_code to_code date : String)
    (h : from_code = "" ∨ to_code = "" ∨ date = "" ∨
      validate_date today date = false) :
    (get_trains_between_stations today env from_code to_code date).requests = [] ∧
    (∃ m, (get_trains_between_stations today env from_code to_code date).resp =
      ⟨some m, []⟩) := by
  by_cases hc : from_code = "" ∨ to_code = "" ∨ date = ""
  · unfold get_trains_between_stations
    simp only [hc, if_true]
    exact ⟨by trivial, "Missing required parameters", by trivial⟩
  · have hv : validate_date today date = false := by
      rcases h with h' | h' | h' | h'
      · exact absurd (Or.inl h') hc
      · exact absurd (Or.inr (Or.inl h')) hc
      · exact absurd (Or.inr (Or.inr h')) hc
      · exact h'
    unfold get_trains_between_stations
    simp only [hc, if_false, hv]
    simp
/-- Witness for the C6 theorem: `fetchTrains("", "BCT", "25-12-2030")`
issues no request and returns the error variant, even though the network
would answer successfully. -/
theorem fetch_short_circuits_witness :
    (get_trains_between_stations ⟨2026, 10, 12⟩
        (fun _ => .response 200 (.ok ⟨none, [{}]⟩)) "" "BCT" "25-12-2030").requests = [] ∧
    (∃ m, (get_trains_between_stations ⟨2026, 10, 12⟩
        (fun _ => .response 200 (.ok ⟨none, [{}]⟩)) "" "BCT" "25-12-2030").resp =
      ⟨some m, []⟩) :=
  fetch_short_circuits ⟨2026, 10, 12⟩ (fun _ => .response 200 (.ok ⟨none, [{}]⟩))
    "" "BCT" "25-12-2030" (Or.inl rfl)

theorem str_empty_append (s : String) : "" ++ s = s := by
  apply String.ext
  simp [String.data_append]

/-- C4: on a success response with a non-empty record list,
`format_train_info` is the count header, the blocks of the first
`min 5 n` records in the order received, and the `more trains available`
trailer exactly when more than five records exist. -/
theorem format_success_shape (trains : List Train) (h : trains ≠ []) :
    format_train_info ⟨none, trains⟩ =
      "ğŸš† Found " ++ toString trains.length ++ " trains for your journey:\n\n" ++
        concatChunks ((enumFrom 1 (trains.take 5)).map fun p => renderTrainBlock p.1 p.2) ++
        (if 5 < trains.length then
          "... and " ++ toString (trains.length - 5) ++ " more trains available.\n"
        else "") ∧
    (trains.take 5).length = min 5 trains.length := by
  constructor
  · by_cases h₅ : 5 < trains.length
    · simp [format_train_info, h, h₅, renderBlocks_eq, str_append_assoc]
    · simp [format_train_info, h, h₅, renderBlocks_eq, str_append_assoc,
        str_append_empty]
  · exact List.length_take 5 trains

/-- Witness for the C4 theorem at a 7-record list: five blocks are rendered
and the trailer reports the 2 omitted trains. -/
theorem format_success_shape_witness :
    (([{}, {}, {}, {}, {}, {}, {}] : List Train) ≠ []) ∧
    (format_train_info ⟨none, ([{}, {}, {}, {}, {}, {}, {}] : List Train)⟩ =
      "ğŸš† Found " ++ toString ([{}, {}, {}, {}, {}, {}, {}] : List Train).length ++
        " trains for your journey:\n\n" ++
        concatChunks ((enumFrom 1 (([{}, {}, {}, {}, {}, {}, {}] : List Train).take 5)).map
          fun p => renderTrainBlock p.1 p.2) ++
        (if 5 < ([{}, {}, {}, {}, {}, {}, {}] : List Train).length then
          "... and " ++ toString (([{}, {}, {}, {}, {}, {}, {}] : List Train).length - 5) ++
            " more trains available.\n"
        else "") ∧
      (([{}, {}, {}, {}, {}, {}, {}] : List Train).take 5).length =
        min 5 ([{}, {}, {}, {}, {}, {}, {}] : List Train).length) ∧
    ((enumFrom 1 (([{}, {}, {}, {}, {}, {}, {}] : List Train).take 5)).map
        (fun p => renderTrainBlock p.1 p.2)).length = 5 ∧
    (5 < ([{}, {}, {}, {}, {}, {}, {}] : List Train).length ∧
      toString (([{}, {}, {}, {}, {}, {}, {}] : List Train).length - 5) = "2") :=
  ⟨by decide, format_success_shape [{}, {}, {}, {}, {}, {}, {}] (by decide),
    by decide, by decide, by decide⟩

/-- C8 counterexample: the `Distance:` line is emitted even when the record
has no distance (rendered as `N/A`), contradicting the only-if-present
condition. -/
theorem block_distance_unconditional_cex :
    ({} : Train).distance = none ∧
    strContains (renderTrainBlock 1 {}) "   ğŸ“ Distance:" = true := by
  decide

/-- C8 (amended): each train block consists of the sequence/name, from, to,
duration and distance lines unconditionally (distance showing `N/A` when
absent), then the running-days line iff `run_days` is non-empty, the classes
line iff `class_type` is non-empty, the halt line iff the defaulted halt
count is non-zero, and a closing blank line. -/
theorem block_structure (i : Nat) (t : Train) :
    renderTrainBlock i t =
      seqChunk i t ++ fromChunk t ++ toChunk t ++ durChunk t ++ distChunk t ++
        (if t.run_days ≠ [] then runChunk t else "") ++
        (if t.class_type ≠ [] then classChunk t else "") ++
        (if t.halt_stn.getD 0 ≠ 0 then haltChunk (t.halt_stn.getD 0) else "") ++ "\n" := by
  unfold renderTrainBlock
  by_cases h₁ : t.run_days ≠ [] <;> by_cases h₂ : t.class_type ≠ [] <;>
    by_cases h₃ : t.halt_stn.getD 0 ≠ 0 <;>
      simp [h₁, h₂, h₃, str_append_assoc, str_append_empty, str_empty_append]

/-- C9: on an error-variant response (non-empty message), the formatted
output is exactly the failure-marker line embedding the message — no train
blocks — and it is a single line when the message has no newline. -/
theorem format_error_line (msg : String) (h₁ : msg ≠ "")
    (h₂ : ('\n' : Char) ∉ msg.data) :
    format_train_info ⟨some msg, []⟩ = "âŒ Error: " ++ msg ∧
    numLines (format_train_info ⟨some msg, []⟩) = 1 := by
  have heq : format_train_info ⟨some msg, []⟩ = "âŒ Error: " ++ msg := by
    unfold format_train_info
    simp [h₁]
  refine ⟨heq, ?_⟩
  rw [heq]
  unfold numLines
  rw [String.data_append, List.count_append]
  have h₃ : msg.data.count '\n' = 0 := List.count_eq_zero.mpr h₂
  have h₄ : ("âŒ Error: " : String).data.count '\n' = 0 := by decide
  rw [h₃, h₄]

/-- Witness for the C9 theorem at message `API Error: 503`: the single output
line contains that message. -/
theorem format_error_line_witness :
    ("API Error: 503" ≠ "" ∧ ('\n' : Char) ∉ ("API Error: 503" : String).data) ∧
    (format_train_info ⟨some "API Error: 503", []⟩ = "âŒ Error: " ++ "API Error: 503" ∧
      numLines (format_train_info ⟨some "API Error: 503", []⟩) = 1) ∧
    strContains (format_train_info ⟨some "API Error: 503", []⟩) "API Error: 503" = true :=
  ⟨⟨by decide, by decide⟩,
    format_error_line "API Error: 503" (by decide) (by decide),
    by decide⟩

/-- C5 counterexample: the code's date parse is Python `strptime`, which
accepts one-digit day and month fields; `"5-1-2030"` fails a strict
`DD-MM-YYYY` parse yet `validate_inputs` collects no issue for it. -/
theorem validate_inputs_strict_parse_cex :
    specStrictParsesDDMMYYYY "5-1-2030" = false ∧
    validate_date ⟨2026, 10, 12⟩ "5-1-2030" = true ∧
    (validate_inputs ⟨2026, 10, 12⟩ "NDLS" "BCT" "5-1-2030").issues = [] ∧
    (validate_inputs ⟨2026, 10, 12⟩ "NDLS" "BCT" "5-1-2030").valid = true := by
  decide

/-- C5 (amended): the three rules are applied independently —
`is_valid` is true iff no issues were collected, the origin issue appears iff
the origin is shorter than 2 characters, the destination issue iff the
destination is shorter than 2 characters, and the date issue iff
`validate_date` rejects the date (Python `strptime("%d-%m-%Y")`, which also
accepts one-digit day/month, or a date strictly before the current date) —
regardless of the station inputs. -/
theorem validate_inputs_rules (today : PyDate)
    (from_station to_station date : String) :
    ((validate_inputs today from_station to_station date).valid = true ↔
      (validate_inputs today from_station to_station date).issues = []) ∧
    ("Departure station code too short" ∈
        (validate_inputs today from_station to_station date).issues ↔
      from_station.length < 2) ∧
    ("Destination station code too short" ∈
        (validate_inputs today from_station to_station date).issues ↔
      to_station.length < 2) ∧
    ("Invalid date or date is in the past" ∈
        (validate_inputs today from_station to_station date).issues ↔
      validate_date today date = false) := by
  by_cases h₁ : from_station.length < 2 <;>
    by_cases h₂ : to_station.length < 2 <;>
      by_cases h₃ : validate_date today date = true <;>
        simp [validate_inputs, h₁, h₂, h₃, Bool.not_eq_true] at *

/-- C10: `validate_inputs` produces as many suggestions as issues, each
suggestion positionally paired with its issue: the zipped issue/suggestion
list is a sublist of the three fixed pairs in order. -/
theorem validate_inputs_pairing (today : PyDate)
    (from_station to_station date : String) :
    (validate_inputs today from_station to_station date).issues.length =
      (validate_inputs today from_station to_station date).suggestions.length ∧
    List.Sublist
      ((validate_inputs today from_station to_station date).issues.zip
        (validate_inputs today from_station to_station date).suggestions)
      [("Departure station code too short",
        "Use 3-4 letter station codes (e.g., NDLS for New Delhi)"),
       ("Destination station code too short",
        "Use 3-4 letter station codes (e.g., BCT for Mumbai Central)"),
       ("Invalid date or date is in the past",
        "Use DD-MM-YYYY format and ensure date is today or future")] := by
  by_cases h₁ : from_station.length < 2 <;>
    by_cases h₂ : to_station.length < 2 <;>
      by_cases h₃ : validate_date today date = true <;>
        refine ⟨?_, ?_⟩ <;>
          simp [validate_inputs, h₁, h₂, h₃]
